import Mathlib

/-!
Shallow embedding of `src/homework.py`, a single-file Telegram bot that polls
the Practicum homework-status API, formats status changes, and notifies a chat.

Modelling conventions:
- Python dicts of string keys and string values (homework records, the verdict
  table, the credential table) are association lists with first-match lookup.
- Python exceptions become `Except PyError` results; the `except Exception`
  block of `main` becomes the `handle_error` branch of `cycle`.
- One iteration of the `while True` loop of `main` is the function `cycle`.
  The network is an oracle: the combined outcome of `get_api_answer` is an
  input `Except PyError Payload`, and Telegram delivery is an input
  `deliver : String → Bool` (the success flag `send_message` reports for a
  given message text).  `check_response` and `parse_status` run inside `cycle`
  exactly as in the source.
- `sys.exit(1)` after the failed credential check becomes the
  `StartupResult.exited 1` value of `main_startup`.
-/

set_option autoImplicit false

/-- First-match lookup in an association list; models access to a Python dict
with string keys and string values (`key in d`, `d[key]`, `d.get(key)`). -/
def lookupField : List (String × String) → String → Option String
  | [], _ => none
  | (k, v) :: rest, key => if k = key then some v else lookupField rest key

/-- A homework record: a dict such as
`\x7b"homework_name": "hw1", "status": "approved"\x7d`. -/
abbrev HwRecord := List (String × String)

/-- The exception values the script can raise, tagged by Python class:
`MissingTokensError` from `check_tokens`, `ConnectionError`/`ValueError` from
`get_api_answer`, `TypeError`/`KeyError` from `check_response`,
`KeyError`/`ValueError` from `parse_status`. -/
inductive PyError where
  | missingTokens (msg : String)
  | connectionError (msg : String)
  | valueError (msg : String)
  | typeError (msg : String)
  | keyError (msg : String)
deriving DecidableEq, Repr

/-- Python `str(error)` as used by the f-string in the `except` block of
`main`.  For `KeyError`, `str` yields the `repr` of the key argument, which
wraps it in single quotes (`\x27`); for the other classes it is the message. -/
def strOfError : PyError → String
  | PyError.missingTokens m => m
  | PyError.connectionError m => m
  | PyError.valueError m => m
  | PyError.typeError m => m
  | PyError.keyError m => "\x27" ++ m ++ "\x27"

/-- The `HOMEWORK_VERDICTS` table (lines 23-27 of the source). -/
def HOMEWORK_VERDICTS : List (String × String) :=
  [("approved", "Работа проверена: ревьюеру всё понравилось. Ура!"),
   ("reviewing", "Работа взята на проверку ревьюером."),
   ("rejected", "Работа проверена: у ревьюера есть замечания.")]

/-- `parse_status` (lines 147-172): requires `homework_name` and `status`
keys, looks the status up in `HOMEWORK_VERDICTS`, raises `ValueError` on an
unknown status, and on success returns the templated message. -/
def parse_status (homework : HwRecord) : Except PyError String :=
  if lookupField homework "homework_name" = none then
    Except.error (PyError.keyError "Ключ \"homework_name\" отсутствует в ответе API")
  else if lookupField homework "status" = none then
    Except.error (PyError.keyError "Ключ \"status\" отсутствует в ответе API")
  else
    let homework_name := (lookupField homework "homework_name").getD ""
    let status := (lookupField homework "status").getD ""
    match lookupField HOMEWORK_VERDICTS status with
    | none => Except.error (PyError.valueError ("Неизвестный статус работы: " ++ status))
    | some verdict =>
        Except.ok ("Изменился статус проверки работы \"" ++ homework_name ++ "\". " ++ verdict)

/-- The three environment credentials (`PRACTICUM_TOKEN`, `TELEGRAM_TOKEN`,
`TELEGRAM_CHAT_ID`); `none` models an absent variable (`os.getenv` → `None`). -/
structure Credentials where
  PRACTICUM_TOKEN : Option String
  TELEGRAM_TOKEN : Option String
  TELEGRAM_CHAT_ID : Option String
deriving DecidableEq, Repr

/-- Python falsiness of an optional string: `not value` is true exactly for
`None` and the empty string. -/
def tokenMissing : Option String → Bool
  | none => true
  | some s => s = ""

/-- The `tokens` dict built inside `check_tokens` (lines 184-188). -/
def tokensTable (c : Credentials) : List (String × Option String) :=
  [("PRACTICUM_TOKEN", c.PRACTICUM_TOKEN),
   ("TELEGRAM_TOKEN", c.TELEGRAM_TOKEN),
   ("TELEGRAM_CHAT_ID", c.TELEGRAM_CHAT_ID)]

/-- `check_tokens` (lines 175-197): collects the names of falsy credentials,
raises `MissingTokensError` naming them if any, else returns `True`. -/
def check_tokens (c : Credentials) : Except PyError Bool :=
  let missing_tokens := ((tokensTable c).filter (fun p => tokenMissing p.2)).map Prod.fst
  if missing_tokens ≠ [] then
    Except.error (PyError.missingTokens
      ("Отсутствуют обязательные переменные окружения: " ++
        String.intercalate ", " missing_tokens))
  else
    Except.ok true

/-- Outcome of the startup section of `main` (lines 202-206). -/
inductive StartupResult where
  | exited (code : Nat)
  | enteredLoop
deriving DecidableEq, Repr

/-- Startup of `main`: `check_tokens` inside `try`; on `MissingTokensError`
it logs at critical level and calls `sys.exit(1)`; otherwise the polling loop
is entered. -/
def main_startup (c : Credentials) : StartupResult :=
  match check_tokens c with
  | Except.error _ => StartupResult.exited 1
  | Except.ok _ => StartupResult.enteredLoop

/-- The value of the `homeworks` field of the payload: either a list of
records, or a value of some other Python type (named for the error message). -/
inductive HomeworksField where
  | listF (hws : List HwRecord)
  | nonList (typeName : String)
deriving DecidableEq, Repr

/-- A parsed API payload as `check_response` sees it: either a dict — with an
optional `homeworks` field and an optional integer `current_date` field — or a
value of some other type. -/
inductive Payload where
  | dictP (homeworksField : Option HomeworksField) (current_date : Option Int)
  | nonDict (typeName : String)
deriving DecidableEq, Repr

/-- `check_response` (lines 114-144): `TypeError` if the payload is not a
dict, `KeyError` if `homeworks` is absent, `TypeError` if `homeworks` is not a
list, else the list unchanged. -/
def check_response : Payload → Except PyError (List HwRecord)
  | Payload.nonDict t =>
      Except.error (PyError.typeError ("Ответ API должен быть словарём, получен " ++ t))
  | Payload.dictP none _ =>
      Except.error (PyError.keyError "Ключ \"homeworks\" отсутствует в ответе API")
  | Payload.dictP (some (HomeworksField.nonList t)) _ =>
      Except.error (PyError.typeError ("homeworks должен быть списком, получен " ++ t))
  | Payload.dictP (some (HomeworksField.listF hws)) _ => Except.ok hws

/-- `response.get("current_date", default)` as used on lines 220-223; the
dict case is the only one reachable there because `check_response` has already
succeeded. -/
def responseCurrentDate : Payload → Option Int
  | Payload.dictP _ cd => cd
  | Payload.nonDict _ => none

/-- Outcome of one call to the Telegram collaborator `bot.send_message`
(line 48): delivered, or one of the two exception classes the `except`
clause of `send_message` lists. -/
inductive DeliveryOutcome where
  | delivered
  | apiException (msg : String)
  | requestException (msg : String)
deriving DecidableEq, Repr

/-- The raw collaborator call `bot.send_message(TELEGRAM_CHAT_ID, message)`:
raises on a delivery failure. -/
def bot_send : DeliveryOutcome → Except String Unit
  | DeliveryOutcome.delivered => Except.ok ()
  | DeliveryOutcome.apiException m => Except.error m
  | DeliveryOutcome.requestException m => Except.error m

/-- `send_message` (lines 36-56): wraps `bot_send` in `try`, logs and returns
`False` on `ApiException`/`RequestException`, returns `True` on success. -/
def send_message (o : DeliveryOutcome) : Bool :=
  match bot_send o with
  | Except.ok _ => true
  | Except.error _ => false

/-- The mutable locals of the polling loop in `main`: `current_timestamp`
(the watermark) and `last_error` (`None` at startup). -/
structure LoopState where
  current_timestamp : Int
  last_error : Option String
deriving DecidableEq, Repr

/-- Observable result of one loop iteration: the updated state, the messages
passed to `send_message` for status notifications, the messages passed to
`send_message` for error notifications, and the messages passed to
`logging.error` by the except block of `main` (line 229; the error logging
inside `send_message` itself, line 55, belongs to the delivery collaborator
and is not recorded here). -/
structure CycleResult where
  state : LoopState
  statusSends : List String
  errorSends : List String
  errorLogs : List String
deriving DecidableEq, Repr

/-- The `except Exception` block of `main` (lines 226-231): builds the error
string, and if it differs from `last_error`, calls `logging.error` on it,
sends it (result ignored) and records it as `last_error`; otherwise does
nothing — in particular the `logging.error` call on line 229 sits inside the
dedup guard, so a suppressed duplicate is not logged either. -/
def handle_error (error_message : String) (st : LoopState) : CycleResult :=
  if st.last_error ≠ some error_message then
    ⟨⟨st.current_timestamp, some error_message⟩, [], [error_message], [error_message]⟩
  else
    ⟨st, [], [], []⟩

/-- One iteration of the `while True` loop of `main` (lines 212-233), with
the `get_api_answer` outcome and the delivery oracle as inputs.  On a
non-empty homework list, the first record is formatted and sent; only when
the send returns `True` are the watermark updated from `current_date` (with
the old value as default) and `last_error` reset.  Every exception from
fetch, validation or formatting reaches `handle_error`. -/
def cycle (deliver : String → Bool) (fetch : Except PyError Payload)
    (st : LoopState) : CycleResult :=
  match fetch with
  | Except.error e => handle_error ("Сбой в работе программы: " ++ strOfError e) st
  | Except.ok payload =>
    match check_response payload with
    | Except.error e => handle_error ("Сбой в работе программы: " ++ strOfError e) st
    | Except.ok homeworks =>
      match homeworks with
      | [] => ⟨st, [], [], []⟩
      | hw :: _ =>
        match parse_status hw with
        | Except.error e => handle_error ("Сбой в работе программы: " ++ strOfError e) st
        | Except.ok message =>
          if deliver message then
            ⟨⟨(responseCurrentDate payload).getD st.current_timestamp, none⟩,
              [message], [], []⟩
          else
            ⟨st, [message], [], []⟩

/-- Discriminator: is this `parse_status` result a `ValueError`
(the unknown-status error class)? -/
def isValueError : Except PyError String → Bool
  | Except.error (PyError.valueError _) => true
  | _ => false

/-- Discriminator: did this `parse_status` result succeed? -/
def exceptIsOk : Except PyError String → Bool
  | Except.ok _ => true
  | Except.error _ => false

/-- Claim C1: startup exits with code 1 exactly when at least one of the three
credentials is empty or absent; with all three non-empty the polling loop is
entered and the exit path is not taken. -/
theorem C1_startup_credentials (c : Credentials) :
    ((tokenMissing c.PRACTICUM_TOKEN = true ∨ tokenMissing c.TELEGRAM_TOKEN = true ∨
        tokenMissing c.TELEGRAM_CHAT_ID = true) →
      main_startup c = StartupResult.exited 1) ∧
    ((tokenMissing c.PRACTICUM_TOKEN = false ∧ tokenMissing c.TELEGRAM_TOKEN = false ∧
        tokenMissing c.TELEGRAM_CHAT_ID = false) →
      main_startup c = StartupResult.enteredLoop) := by
  cases h1 : tokenMissing c.PRACTICUM_TOKEN <;>
    cases h2 : tokenMissing c.TELEGRAM_TOKEN <;>
      cases h3 : tokenMissing c.TELEGRAM_CHAT_ID <;>
        simp [main_startup, check_tokens, tokensTable, h1, h2, h3]

/-- Witness for C1 at concrete credential sets. -/
theorem C1_witness :
    main_startup ⟨some "", some "tok", some "chat"⟩ = StartupResult.exited 1 ∧
    main_startup ⟨some "a", some "b", some "c"⟩ = StartupResult.enteredLoop :=
  ⟨(C1_startup_credentials _).1 (Or.inl rfl), (C1_startup_credentials _).2 ⟨rfl, rfl, rfl⟩⟩

/-- Claim C10: the result of `parse_status` depends only on the
`homework_name` and `status` entries of the record. -/
theorem C10_format_depends_only_on_name_and_status (r1 r2 : HwRecord)
    (hn : lookupField r1 "homework_name" = lookupField r2 "homework_name")
    (hs : lookupField r1 "status" = lookupField r2 "status") :
    parse_status r1 = parse_status r2 := by
  unfold parse_status
  rw [hn, hs]

/-- Witness for C10: an extra field and a different key order do not change
the result. -/
theorem C10_witness :
    parse_status [("extra", "z"), ("homework_name", "hw1"), ("status", "approved")] =
      parse_status [("homework_name", "hw1"), ("status", "approved")] :=
  C10_format_depends_only_on_name_and_status _ _ rfl rfl

/-- Counterexample to claim C5: on a record with `homework_name` but no
`status`, `parse_status` raises a `KeyError` (missing-key error), not the
unknown-value `ValueError` the claim announces. -/
theorem C5_counterexample :
    isValueError (parse_status [("homework_name", "hw1")]) = false ∧
    parse_status [("homework_name", "hw1")] =
      Except.error (PyError.keyError "Ключ \"status\" отсутствует в ответе API") :=
  ⟨rfl, rfl⟩

/-- Claim C5 as amended: a record with `homework_name` present and `status`
absent fails on the dedicated missing-key check for `status`, a separate
fatal path that never reaches the unknown-status lookup. -/
theorem C5_missing_status_is_keyerror (fields : HwRecord)
    (hn : lookupField fields "homework_name" ≠ none)
    (hs : lookupField fields "status" = none) :
    parse_status fields =
      Except.error (PyError.keyError "Ключ \"status\" отсутствует в ответе API") := by
  unfold parse_status
  rw [hs]
  simp [hn]

/-- Witness for the amended C5. -/
theorem C5_witness :
    parse_status [("homework_name", "hw1"), ("other", "x")] =
      Except.error (PyError.keyError "Ключ \"status\" отсутствует в ответе API") :=
  C5_missing_status_is_keyerror _ (by decide) rfl

/-- Claim C7: an unrecognised status value makes `parse_status` fail with a
`ValueError` naming that value, while the three table statuses succeed. -/
theorem C7_unknown_status (fields : HwRecord) (name status : String)
    (hn : lookupField fields "homework_name" = some name)
    (hs : lookupField fields "status" = some status) :
    ((status ≠ "approved" ∧ status ≠ "reviewing" ∧ status ≠ "rejected") →
      parse_status fields =
        Except.error (PyError.valueError ("Неизвестный статус работы: " ++ status))) ∧
    ((status = "approved" ∨ status = "reviewing" ∨ status = "rejected") →
      exceptIsOk (parse_status fields) = true) := by
  unfold parse_status
  rw [hn, hs]
  constructor
  · rintro ⟨h1, h2, h3⟩
    have hv : lookupField HOMEWORK_VERDICTS status = none := by
      simp only [HOMEWORK_VERDICTS, lookupField]
      rw [if_neg (fun h => h1 h.symm), if_neg (fun h => h2 h.symm),
        if_neg (fun h => h3 h.symm)]
    simp [hv]
  · rintro (h | h | h) <;> subst h <;>
      simp [lookupField, HOMEWORK_VERDICTS, exceptIsOk]

/-- Witness for C7: a concrete unknown status fails naming it, and a known
status succeeds. -/
theorem C7_witness :
    parse_status [("homework_name", "hw"), ("status", "oops")] =
      Except.error (PyError.valueError ("Неизвестный статус работы: " ++ "oops")) ∧
    exceptIsOk (parse_status [("homework_name", "hw"), ("status", "approved")]) = true :=
  ⟨(C7_unknown_status [("homework_name", "hw"), ("status", "oops")] "hw" "oops"
      rfl rfl).1 (by decide),
   (C7_unknown_status [("homework_name", "hw"), ("status", "approved")] "hw" "approved"
      rfl rfl).2 (Or.inl rfl)⟩

/-- Counterexample to claim C2: a cycle whose validated response has an empty
`homeworks` list and `current_date = 1000` leaves the watermark at 5 instead
of setting it to 1000. -/
theorem C2_counterexample :
    (cycle (fun _ => true)
      (Except.ok (Payload.dictP (some (HomeworksField.listF [])) (some 1000)))
      ⟨5, none⟩).state.current_timestamp = 5 ∧ (5 : Int) ≠ 1000 :=
  ⟨rfl, by decide⟩

/-- Claim C2 as amended: the watermark is read from `current_date` (with the
old value as default) exactly in the cycles where the homeworks list is
non-empty, its first record formats successfully, and the send succeeds; in
every other cycle — empty list, failed send, format failure, or any error
before validation — it is left unchanged even when `current_date` is present.
The first conjunct covers the delivered cycles; the second covers every cycle
with no delivered notification. -/
theorem C2_watermark_update (deliver : String → Bool) (fetch : Except PyError Payload)
    (st : LoopState) :
    (∀ p hw tl m, fetch = Except.ok p → check_response p = Except.ok (hw :: tl) →
      parse_status hw = Except.ok m → deliver m = true →
      (cycle deliver fetch st).state.current_timestamp =
        (responseCurrentDate p).getD st.current_timestamp) ∧
    ((∀ p hw tl m, fetch = Except.ok p → check_response p = Except.ok (hw :: tl) →
        parse_status hw = Except.ok m → deliver m = true → False) →
      (cycle deliver fetch st).state.current_timestamp = st.current_timestamp) := by
  have hErrTs : ∀ msg,
      (handle_error msg st).state.current_timestamp = st.current_timestamp := by
    intro msg
    unfold handle_error
    split <;> rfl
  constructor
  · rintro p hw tl m rfl h1 h2 h3
    simp [cycle, h1, h2, h3]
  · intro hno
    cases fetch with
    | error e => simpa [cycle] using hErrTs _
    | ok p =>
      cases hc : check_response p with
      | error e => simpa [cycle, hc] using hErrTs _
      | ok homeworks =>
        cases homeworks with
        | nil => simp [cycle, hc]
        | cons hw tl =>
          cases hp : parse_status hw with
          | error e => simpa [cycle, hc, hp] using hErrTs _
          | ok m =>
            cases hd : deliver m with
            | false => simp [cycle, hc, hp, hd]
            | true => exact (hno p hw tl m rfl hc hp hd).elim

/-- Witness for the amended C2: a delivered notification pulls the watermark
from `current_date`, while a cycle whose first record fails to format (an
unknown status) leaves it unchanged despite `current_date` being present. -/
theorem C2_witness :
    (cycle (fun _ => true)
      (Except.ok (Payload.dictP (some (HomeworksField.listF
        [[("homework_name", "hw1"), ("status", "approved")]])) (some 7)))
      ⟨3, none⟩).state.current_timestamp = 7 ∧
    (cycle (fun _ => true)
      (Except.ok (Payload.dictP (some (HomeworksField.listF
        [[("homework_name", "hw1"), ("status", "oops")]])) (some 7)))
      ⟨3, none⟩).state.current_timestamp = 3 :=
  ⟨((C2_watermark_update (fun _ => true)
      (Except.ok (Payload.dictP (some (HomeworksField.listF
        [[("homework_name", "hw1"), ("status", "approved")]])) (some 7)))
      ⟨3, none⟩).1 _ _ _ _ rfl rfl rfl rfl).trans rfl,
   (C2_watermark_update (fun _ => true)
      (Except.ok (Payload.dictP (some (HomeworksField.listF
        [[("homework_name", "hw1"), ("status", "oops")]])) (some 7)))
      ⟨3, none⟩).2
     (fun p hw tl m hp h1 h2 _ => by
       injection hp with h4
       subst h4
       simp only [check_response, Except.ok.injEq, List.cons.injEq] at h1
       obtain ⟨h5, -⟩ := h1
       subst h5
       simp [parse_status, lookupField, HOMEWORK_VERDICTS] at h2)⟩

/-- Counterexample to claim C3: two cycles with the identical response (one
approved record, both sends succeeding) send the status message twice, not
once — the loop keeps no last-sent message. -/
theorem C3_counterexample :
    (cycle (fun _ => true)
        (Except.ok (Payload.dictP (some (HomeworksField.listF
          [[("homework_name", "hw1"), ("status", "approved")]])) (some 1000)))
        ⟨0, none⟩).statusSends.length +
      (cycle (fun _ => true)
        (Except.ok (Payload.dictP (some (HomeworksField.listF
          [[("homework_name", "hw1"), ("status", "approved")]])) (some 1000)))
        ((cycle (fun _ => true)
          (Except.ok (Payload.dictP (some (HomeworksField.listF
            [[("homework_name", "hw1"), ("status", "approved")]])) (some 1000)))
          ⟨0, none⟩).state)).statusSends.length = 2 ∧ (2 : Nat) ≠ 1 :=
  ⟨rfl, by decide⟩

/-- Claim C3 as amended: with an unchanged upstream response and a succeeding
send, each of the two consecutive cycles sends the formatted message — two
sends in total; only errors are deduplicated, successful messages are not. -/
theorem C3_second_cycle_sends_again (deliver : String → Bool) (p : Payload)
    (st : LoopState) (hw : HwRecord) (tl : List HwRecord) (m : String)
    (h1 : check_response p = Except.ok (hw :: tl))
    (h2 : parse_status hw = Except.ok m) (h3 : deliver m = true) :
    (cycle deliver (Except.ok p) st).statusSends = [m] ∧
    (cycle deliver (Except.ok p)
      (cycle deliver (Except.ok p) st).state).statusSends = [m] := by
  constructor <;> simp [cycle, h1, h2, h3]

/-- Witness for the amended C3. -/
theorem C3_witness :
    (cycle (fun _ => true)
      (Except.ok (Payload.dictP (some (HomeworksField.listF
        [[("homework_name", "hw1"), ("status", "approved")]])) (some 1000)))
      ⟨0, none⟩).statusSends =
      ["Изменился статус проверки работы \"hw1\". Работа проверена: ревьюеру всё понравилось. Ура!"] ∧
    (cycle (fun _ => true)
      (Except.ok (Payload.dictP (some (HomeworksField.listF
        [[("homework_name", "hw1"), ("status", "approved")]])) (some 1000)))
      ((cycle (fun _ => true)
        (Except.ok (Payload.dictP (some (HomeworksField.listF
          [[("homework_name", "hw1"), ("status", "approved")]])) (some 1000)))
        ⟨0, none⟩).state)).statusSends =
      ["Изменился статус проверки работы \"hw1\". Работа проверена: ревьюеру всё понравилось. Ура!"] :=
  C3_second_cycle_sends_again (fun _ => true)
    (Payload.dictP (some (HomeworksField.listF
      [[("homework_name", "hw1"), ("status", "approved")]])) (some 1000))
    ⟨0, none⟩ [("homework_name", "hw1"), ("status", "approved")] [] _ rfl rfl rfl

/-- Counterexample to claim C4: from watermark 1000, a delivered cycle whose
response carries `current_date = 5` drops the watermark to 5 — the code
assigns without comparing. -/
theorem C4_counterexample :
    (cycle (fun _ => true)
      (Except.ok (Payload.dictP (some (HomeworksField.listF
        [[("homework_name", "hw1"), ("status", "approved")]])) (some 5)))
      ⟨1000, none⟩).state.current_timestamp = 5 ∧ ¬ ((1000 : Int) ≤ 5) :=
  ⟨rfl, by decide⟩

/-- Claim C4 as amended: the watermark is non-decreasing over a cycle only
under the assumption that any `current_date` the API supplies is at least the
current watermark; the code itself performs no comparison. -/
theorem C4_monotone_when_api_not_older (deliver : String → Bool)
    (fetch : Except PyError Payload) (st : LoopState)
    (h : ∀ p d, fetch = Except.ok p → responseCurrentDate p = some d →
      st.current_timestamp ≤ d) :
    st.current_timestamp ≤ (cycle deliver fetch st).state.current_timestamp := by
  have hErr : ∀ msg, st.current_timestamp ≤
      (handle_error msg st).state.current_timestamp := by
    intro msg
    unfold handle_error
    split <;> simp
  cases fetch with
  | error e => exact hErr _
  | ok p =>
    cases hc : check_response p with
    | error e => simpa [cycle, hc] using hErr _
    | ok homeworks =>
      cases homeworks with
      | nil => simp [cycle, hc]
      | cons hw tl =>
        cases hp : parse_status hw with
        | error e => simpa [cycle, hc, hp] using hErr _
        | ok m =>
          cases hd : deliver m with
          | false => simp [cycle, hc, hp, hd]
          | true =>
            cases hcd : responseCurrentDate p with
            | none => simp [cycle, hc, hp, hd, hcd]
            | some d => simpa [cycle, hc, hp, hd, hcd] using h p d rfl hcd

/-- Witness for the amended C4. -/
theorem C4_witness :
    (0 : Int) ≤ (cycle (fun _ => true)
      (Except.ok (Payload.dictP (some (HomeworksField.listF
        [[("homework_name", "hw1"), ("status", "approved")]])) (some 1000)))
      ⟨0, none⟩).state.current_timestamp :=
  C4_monotone_when_api_not_older (fun _ => true) _ ⟨0, none⟩
    (fun p d hp hd => by
      injection hp with h1
      subst h1
      simp only [responseCurrentDate, Option.some.injEq] at hd
      subst hd
      decide)

/-- Claim C6: the approved record `hw1` formats to the exact verdict message,
and a cycle receiving it with `current_date = 1000` — the send succeeding —
advances the watermark to 1000. -/
theorem C6_scenario1 (deliver : String → Bool) (st : LoopState)
    (h : deliver "Изменился статус проверки работы \"hw1\". Работа проверена: ревьюеру всё понравилось. Ура!" = true) :
    parse_status [("homework_name", "hw1"), ("status", "approved")] =
      Except.ok "Изменился статус проверки работы \"hw1\". Работа проверена: ревьюеру всё понравилось. Ура!" ∧
    (cycle deliver
      (Except.ok (Payload.dictP (some (HomeworksField.listF
        [[("homework_name", "hw1"), ("status", "approved")]])) (some 1000)))
      st).state.current_timestamp = 1000 := by
  refine ⟨rfl, ?_⟩
  have hp : parse_status [("homework_name", "hw1"), ("status", "approved")] =
      Except.ok "Изменился статус проверки работы \"hw1\". Работа проверена: ревьюеру всё понравилось. Ура!" := rfl
  have hc : check_response (Payload.dictP (some (HomeworksField.listF
      [[("homework_name", "hw1"), ("status", "approved")]])) (some 1000)) =
      Except.ok [[("homework_name", "hw1"), ("status", "approved")]] := rfl
  simp [cycle, hc, hp, h, responseCurrentDate]

/-- Witness for C6 with an always-succeeding delivery oracle. -/
theorem C6_witness :
    parse_status [("homework_name", "hw1"), ("status", "approved")] =
      Except.ok "Изменился статус проверки работы \"hw1\". Работа проверена: ревьюеру всё понравилось. Ура!" ∧
    (cycle (fun _ => true)
      (Except.ok (Payload.dictP (some (HomeworksField.listF
        [[("homework_name", "hw1"), ("status", "approved")]])) (some 1000)))
      ⟨0, none⟩).state.current_timestamp = 1000 :=
  C6_scenario1 (fun _ => true) ⟨0, none⟩ rfl

/-- Counterexample to claim C8: in the second of two consecutive cycles
raising the identical error string, the suppressed cycle does not log either —
`logging.error` on line 229 sits inside the dedup guard, so its log list is
empty, while the first cycle both logs and sends. -/
theorem C8_counterexample :
    (cycle (fun _ => true) (Except.error (PyError.connectionError "boom"))
      ((cycle (fun _ => true) (Except.error (PyError.connectionError "boom"))
        ⟨5, none⟩).state)).errorLogs = [] ∧
    (cycle (fun _ => true) (Except.error (PyError.connectionError "boom"))
      ⟨5, none⟩).errorLogs = ["Сбой в работе программы: boom"] ∧
    (cycle (fun _ => true) (Except.error (PyError.connectionError "boom"))
      ⟨5, none⟩).errorSends = ["Сбой в работе программы: boom"] :=
  ⟨rfl, rfl, rfl⟩

/-- Claim C8 as amended: two consecutive cycles raising errors with the same
string send exactly one error notification — the first cycle logs it, sends it
and records it as the last-reported error; the second suppresses the send and
the log alike, since the `logging.error` call sits inside the dedup guard. -/
theorem C8_error_dedup (deliver : String → Bool) (st : LoopState) (e : PyError)
    (h : st.last_error ≠ some ("Сбой в работе программы: " ++ strOfError e)) :
    (cycle deliver (Except.error e) st).errorSends =
      ["Сбой в работе программы: " ++ strOfError e] ∧
    (cycle deliver (Except.error e) st).errorLogs =
      ["Сбой в работе программы: " ++ strOfError e] ∧
    (cycle deliver (Except.error e) st).state.last_error =
      some ("Сбой в работе программы: " ++ strOfError e) ∧
    (cycle deliver (Except.error e)
      (cycle deliver (Except.error e) st).state).errorSends = [] ∧
    (cycle deliver (Except.error e)
      (cycle deliver (Except.error e) st).state).errorLogs = [] := by
  have h1 : cycle deliver (Except.error e) st =
      ⟨⟨st.current_timestamp, some ("Сбой в работе программы: " ++ strOfError e)⟩, [],
        ["Сбой в работе программы: " ++ strOfError e],
        ["Сбой в работе программы: " ++ strOfError e]⟩ := by
    show handle_error _ _ = _
    unfold handle_error
    rw [if_pos h]
  have h2 : cycle deliver (Except.error e)
      (⟨st.current_timestamp, some ("Сбой в работе программы: " ++ strOfError e)⟩ :
        LoopState) =
      ⟨⟨st.current_timestamp, some ("Сбой в работе программы: " ++ strOfError e)⟩,
        [], [], []⟩ := by
    show handle_error _ _ = _
    unfold handle_error
    rw [if_neg]
    simp
  refine ⟨by rw [h1], by rw [h1], by rw [h1], ?_, ?_⟩ <;> rw [h1, h2]

/-- Witness for the amended C8 from the startup state (`last_error = None`). -/
theorem C8_witness :
    (cycle (fun _ => true) (Except.error (PyError.valueError "down"))
      ⟨5, none⟩).errorSends =
      ["Сбой в работе программы: " ++ strOfError (PyError.valueError "down")] ∧
    (cycle (fun _ => true) (Except.error (PyError.valueError "down"))
      ⟨5, none⟩).errorLogs =
      ["Сбой в работе программы: " ++ strOfError (PyError.valueError "down")] ∧
    (cycle (fun _ => true) (Except.error (PyError.valueError "down"))
      ⟨5, none⟩).state.last_error =
      some ("Сбой в работе программы: " ++ strOfError (PyError.valueError "down")) ∧
    (cycle (fun _ => true) (Except.error (PyError.valueError "down"))
      ((cycle (fun _ => true) (Except.error (PyError.valueError "down"))
        ⟨5, none⟩).state)).errorSends = [] ∧
    (cycle (fun _ => true) (Except.error (PyError.valueError "down"))
      ((cycle (fun _ => true) (Except.error (PyError.valueError "down"))
        ⟨5, none⟩).state)).errorLogs = [] :=
  C8_error_dedup (fun _ => true) ⟨5, none⟩ (PyError.valueError "down")
    (by simp)

/-- Claim C9: `send_message` converts the delivery outcome to a boolean flag —
true exactly on success, false exactly when the collaborator raises — and a
failed send leaves the cycle intact: state unchanged, no error path taken. -/
theorem C9_send_isolation (o : DeliveryOutcome) :
    (send_message o = true ↔ bot_send o = Except.ok ()) ∧
    (send_message o = false ↔ bot_send o ≠ Except.ok ()) ∧
    (∀ (deliver : String → Bool) (p : Payload) (st : LoopState) (hw : HwRecord)
        (tl : List HwRecord) (m : String),
      check_response p = Except.ok (hw :: tl) → parse_status hw = Except.ok m →
      deliver m = false →
      cycle deliver (Except.ok p) st = ⟨st, [m], [], []⟩) := by
  refine ⟨?_, ?_, ?_⟩
  · cases o <;> simp [send_message, bot_send]
  · cases o <;> simp [send_message, bot_send]
  · intro deliver p st hw tl m h1 h2 h3
    simp [cycle, h1, h2, h3]

/-- Witness for C9: a concrete raised delivery error yields the false flag,
and a cycle whose send fails completes with its state unchanged. -/
theorem C9_witness :
    (send_message (DeliveryOutcome.apiException "boom") = false ↔
      bot_send (DeliveryOutcome.apiException "boom") ≠ Except.ok ()) ∧
    cycle (fun _ => false)
      (Except.ok (Payload.dictP (some (HomeworksField.listF
        [[("homework_name", "hw1"), ("status", "approved")]])) (some 1000)))
      ⟨5, none⟩ =
      ⟨⟨5, none⟩,
        ["Изменился статус проверки работы \"hw1\". Работа проверена: ревьюеру всё понравилось. Ура!"],
        [], []⟩ :=
  ⟨(C9_send_isolation (DeliveryOutcome.apiException "boom")).2.1,
   (C9_send_isolation DeliveryOutcome.delivered).2.2 (fun _ => false)
     (Payload.dictP (some (HomeworksField.listF
       [[("homework_name", "hw1"), ("status", "approved")]])) (some 1000))
     ⟨5, none⟩ [("homework_name", "hw1"), ("status", "approved")] [] _ rfl rfl rfl⟩
